import Mathlib

/-!
# Verification of the brewing-water-calculator core

Shallow embedding of the water-chemistry calculator: the additive catalog
(src/salts.ts), the QP problem builder and solution mapper
(src/optimizer-qp.ts), the orchestrator (src/optimizer.ts), the
calculator entry point (calculator.ts re-exported from src/index.ts), the
input validator (validator.ts) and the brewing analysis module
(brewing-analysis.ts).  JavaScript numbers are modelled as rationals; the
external quadprog solver is modelled as a black-box function that either
returns a (1-indexed) solution vector or fails.
-/

/-- The six tracked ions of a water profile (types.ts, WaterProfile). -/
inductive Ion : Type
  | Ca | Mg | Na | SO4 | Cl | HCO3
deriving DecidableEq

/-- A water profile assigns a concentration to each tracked ion. -/
abbrev WaterProfile : Type := Ion → ℚ

/-- The five catalog salts, in the order used throughout the code
(gypsum, calcium chloride, epsom salt, table salt, baking soda). -/
inductive SaltKey : Type
  | gypsum | cacl2 | epsom | nacl | nahco3
deriving DecidableEq

/-- A salt-additions vector assigns a mass in grams to each catalog salt. -/
abbrev SaltAdditions : Type := SaltKey → ℚ

/-- ION_CONTRIBUTIONS from src/salts.ts: mg of ion contributed per gram of
salt per liter of water; 0 when the salt does not contribute the ion. -/
def contribution : SaltKey → Ion → ℚ
  | .gypsum, .Ca => 232.8
  | .gypsum, .SO4 => 557.9
  | .cacl2, .Ca => 272.6
  | .cacl2, .Cl => 482.3
  | .epsom, .Mg => 98.6
  | .epsom, .SO4 => 389.6
  | .nacl, .Na => 393.4
  | .nacl, .Cl => 606.6
  | .nahco3, .Na => 273.6
  | .nahco3, .HCO3 => 726.4
  | _, _ => 0

/-- The `ions` array of optimizer-qp.ts in source order. -/
def ionOrder : List Ion := [.Ca, .Mg, .Na, .SO4, .Cl, .HCO3]

/-- The `salts` array of optimizer-qp.ts in source order. -/
def saltOrder : List SaltKey := [.gypsum, .cacl2, .epsom, .nacl, .nahco3]

/-- 1-indexed lookup into the `ions` array (`ions[ionIdx - 1]`). -/
def ionAt (i : ℕ) : Ion := ionOrder.getD (i - 1) .Ca

/-- 1-indexed lookup into the `salts` array (`salts[saltIdx - 1]`). -/
def saltAt (j : ℕ) : SaltKey := saltOrder.getD (j - 1) .gypsum

/-- JavaScript Math.round: round half toward positive infinity. -/
def jsRound (x : ℚ) : ℤ := ⌊x + 1/2⌋

/-- The ubiquitous `Math.round(x * 10) / 10` one-decimal-place rounding. -/
def round1 (x : ℚ) : ℚ := (jsRound (x * 10) : ℚ) / 10

/-- `Math.round(x * 100) / 100` two-decimal-place rounding. -/
def round2 (x : ℚ) : ℚ := (jsRound (x * 100) : ℚ) / 100

/-!
## Problem Builder (buildQuadprogMatrices, src/optimizer-qp.ts)

The code fills 1-indexed arrays whose index-0 row and column stay at their
initialized value 0; they are embedded as total functions on ℕ that return
0 outside the filled 1-based index range.
-/

/-- The `needed` vector: `target[ion] - base[ion]`, 1-indexed over ions. -/
def neededVec (base target : WaterProfile) (k : ℕ) : ℚ :=
  if 1 ≤ k ∧ k ≤ 6 then target (ionAt k) - base (ionAt k) else 0

/-- The contribution matrix `A` (ions × salts): the code writes
`contribution / volumeLiters` only when `contribution > 0`, leaving the
initialized 0 otherwise. -/
def contribMatrix (vol : ℚ) (i j : ℕ) : ℚ :=
  if 1 ≤ i ∧ i ≤ 6 ∧ 1 ≤ j ∧ j ≤ 5 then
    (if 0 < contribution (saltAt j) (ionAt i) then contribution (saltAt j) (ionAt i) / vol
     else 0)
  else 0

/-- The Hessian `H[i][j] = 2 * Σ_k A[k][i] * A[k][j]` over the six ions. -/
def hessian (vol : ℚ) (i j : ℕ) : ℚ :=
  if 1 ≤ i ∧ i ≤ 5 ∧ 1 ≤ j ∧ j ≤ 5 then
    2 * ((List.range 6).map (fun k => contribMatrix vol (k + 1) i * contribMatrix vol (k + 1) j)).sum
  else 0

/-- The linear term `dvec[i] = 2 * Σ_k A[k][i] * needed[k]`. -/
def linearVec (vol : ℚ) (base target : WaterProfile) (i : ℕ) : ℚ :=
  if 1 ≤ i ∧ i ≤ 5 then
    2 * ((List.range 6).map (fun k => contribMatrix vol (k + 1) i * neededVec base target (k + 1))).sum
  else 0

/-- The constraint matrix `Amat`: identity on the 1..5 block, expressing one
non-negativity constraint per salt. -/
def constraintMatrix (i j : ℕ) : ℚ :=
  if i = j ∧ 1 ≤ i ∧ i ≤ 5 then 1 else 0

/-- The record returned by buildQuadprogMatrices. -/
structure QPMatrices where
  H : ℕ → ℕ → ℚ
  dvec : ℕ → ℚ
  Amat : ℕ → ℕ → ℚ
  bvec : ℕ → ℚ
  A : ℕ → ℕ → ℚ
  needed : ℕ → ℚ

/-- buildQuadprogMatrices from src/optimizer-qp.ts. -/
def buildQuadprogMatrices (vol : ℚ) (base target : WaterProfile) : QPMatrices :=
  { H := hessian vol
    dvec := linearVec vol base target
    Amat := constraintMatrix
    bvec := fun _ => 0
    A := contribMatrix vol
    needed := neededVec base target }

/-!
## The external quadprog solver (black box)
-/

/-- The four arguments the code passes to `solveQP` (meq = 0 is fixed). -/
structure QPProblem where
  Dmat : ℕ → ℕ → ℚ
  dvec : ℕ → ℚ
  Amat : ℕ → ℕ → ℚ
  bvec : ℕ → ℚ

/-- The solver input `solveQP(H, dvec, Amat, bvec, 0)`. -/
def qpInput (m : QPMatrices) : QPProblem :=
  { Dmat := m.H, dvec := m.dvec, Amat := m.Amat, bvec := m.bvec }

/-- A quadprog solver, as consumed by optimizeWithQP: `none` models a throw
or a missing `result.solution`; `some sol` is the 1-indexed solution array
(index 0 unused). -/
abbrev QPSolver : Type := QPProblem → Option (List ℚ)

/-!
## Solution Mapper and Orchestrator (optimizeWithQP, src/optimizer-qp.ts)
-/

/-- The 1-based position of each salt in the solver's solution array. -/
def saltIdx : SaltKey → ℕ
  | .gypsum => 1
  | .cacl2 => 2
  | .epsom => 3
  | .nacl => 4
  | .nahco3 => 5

/-- `result.solution[i] || 0`: a present rational value passes through
unchanged (0 stays 0 under JavaScript's `||`); a missing entry becomes 0. -/
def extractPrecise (sol : List ℚ) : SaltAdditions :=
  fun k => sol.getD (saltIdx k) 0

/-- One salt's contribution to one ion in the achieved-profile loop: the
code adds `contribution * amount / volumeLiters` only under the guards
`amount > 0` and `contribution > 0`. -/
def saltIonTerm (vol amount c : ℚ) : ℚ :=
  if 0 < amount then (if 0 < c then c * amount / vol else 0) else 0

/-- The achieved profile: base plus the guarded contribution of each salt
(the `salts.forEach` loop of optimizeWithQP). -/
def applySalts (vol : ℚ) (base : WaterProfile) (s : SaltAdditions) : WaterProfile :=
  fun ion => base ion + (saltOrder.map (fun k => saltIonTerm vol (s k) (contribution k ion))).sum

/-- The result record of optimizeWithQP (types.ts, OptimizationResult). -/
structure OptimizationResult where
  saltAdditions : SaltAdditions
  saltAdditionsDisplay : SaltAdditions
  calculatedProfile : WaterProfile
  deviations : WaterProfile
  feasible : Bool

/-- The catch-branch fallback of optimizeWithQP: all-zero additions, the
base profile unchanged, and deviations target − base. -/
def infeasibleFallback (base target : WaterProfile) : OptimizationResult :=
  { saltAdditions := fun _ => 0
    saltAdditionsDisplay := fun _ => 0
    calculatedProfile := base
    deviations := fun ion => target ion - base ion
    feasible := false }

/-- optimizeWithQP from src/optimizer-qp.ts, with the solver passed
explicitly.  A solver failure (throw or missing solution) lands in the
catch branch; on success the precise vector is extracted unrounded, the
display vector is its one-decimal rounding, and profile and deviations are
computed from the precise vector. -/
def optimizeWithQP (solver : QPSolver) (vol : ℚ) (base target : WaterProfile) :
    OptimizationResult :=
  match solver (qpInput (buildQuadprogMatrices vol base target)) with
  | none => infeasibleFallback base target
  | some sol =>
      { saltAdditions := extractPrecise sol
        saltAdditionsDisplay := fun k => round1 (extractPrecise sol k)
        calculatedProfile := applySalts vol base (extractPrecise sol)
        deviations := fun ion => applySalts vol base (extractPrecise sol) ion - target ion
        feasible := true }

/-- optimizeSaltAdditions from src/optimizer.ts: throws (modelled as
Except.error) when the QP result is not feasible, otherwise returns the
result together with `iterations = 1`. -/
def optimizeSaltAdditions (solver : QPSolver) (vol : ℚ) (base target : WaterProfile) :
    Except String (OptimizationResult × ℕ) :=
  let result := optimizeWithQP solver vol base target
  if result.feasible then Except.ok (result, 1)
  else Except.error "Unable to find a feasible solution for the target water profile"

/-- roundSmallAdditions from src/optimizer.ts: amounts below the 0.1 g
threshold become 0, everything else is rounded to one decimal place. -/
def roundSmallAdditions (s : SaltAdditions) : SaltAdditions :=
  fun k => if s k < 0.1 then 0 else round1 (s k)

/-!
## Input validation (validator.ts)

The `typeof value !== 'number' || !isFinite(value)` guards can never fire
in the rational embedding (every ℚ is a finite number), so only the sign
and range checks remain.
-/

/-- ValidationResult from validator.ts. -/
structure ValidationResult where
  valid : Bool
  errors : List String

/-- Printable ion names, as interpolated into error messages. -/
def ionName : Ion → String
  | .Ca => "Ca"
  | .Mg => "Mg"
  | .Na => "Na"
  | .SO4 => "SO4"
  | .Cl => "Cl"
  | .HCO3 => "HCO3"

/-- VALIDATION_RANGES.ions upper bounds (all lower bounds are 0). -/
def ionMax : Ion → ℚ
  | .Ca => 1000
  | .Mg => 200
  | .Na => 500
  | .SO4 => 2000
  | .Cl => 1000
  | .HCO3 => 1000

/-- The `${range.min} and ${range.max}` fragment of the profile error text. -/
def ionRangeText : Ion → String
  | .Ca => "0 and 1000"
  | .Mg => "0 and 200"
  | .Na => "0 and 500"
  | .SO4 => "0 and 2000"
  | .Cl => "0 and 1000"
  | .HCO3 => "0 and 1000"

/-- validateWaterProfile from validator.ts: one range error per offending
ion, in ion order. -/
def validateWaterProfile (p : WaterProfile) (ptype : String) : ValidationResult :=
  let errs := ionOrder.foldl (fun acc ion =>
    if p ion < 0 ∨ ionMax ion < p ion then
      acc ++ [ptype ++ " profile: " ++ ionName ion ++ " must be between "
        ++ ionRangeText ion ++ " ppm"]
    else acc) []
  { valid := errs.isEmpty, errors := errs }

/-- The full error list of validateInputs: volume errors first (the
non-positive check shadows the range check), then base then target
profile errors. -/
def inputErrors (vol : ℚ) (base target : WaterProfile) : List String :=
  (if vol ≤ 0 then ["volume must be positive"]
   else if vol < 0.1 ∨ 1000 < vol then ["volume must be between 0.1 and 1000 liters"]
   else [])
  ++ (validateWaterProfile base "base").errors
  ++ (validateWaterProfile target "target").errors

/-- validateInputs from validator.ts. -/
def validateInputs (vol : ℚ) (base target : WaterProfile) : ValidationResult :=
  { valid := (inputErrors vol base target).isEmpty
    errors := inputErrors vol base target }

/-!
## Brewing analysis (brewing-analysis.ts)
-/

/-- BrewingAnalysis from types.ts; the ratio is `none` where the code
stores null. -/
structure BrewingAnalysis where
  alkalinity : ℚ
  residual_alkalinity : ℚ
  sulfate_chloride_ratio : Option ℚ
  sulfate_chloride_balance : String
  total_hardness : ℚ
  effective_hardness : ℚ
  color_range : String

/-- getSulfateChlorideBalance from brewing-analysis.ts. -/
def getSulfateChlorideBalance : Option ℚ → String
  | none => "N/A (No Chloride)"
  | some r =>
      if r < 0.4 then "Very Malty"
      else if r < 0.6 then "Malty"
      else if r < 0.8 then "Slightly Malty"
      else if r < 1.2 then "Balanced"
      else if r < 2.0 then "Slightly Bitter"
      else if r < 3.0 then "Bitter"
      else "Very Bitter"

/-- getColorRange from brewing-analysis.ts. -/
def getColorRange (ra : ℚ) : String :=
  if ra < 0 then "2-8 EBC (Pilsner)"
  else if ra < 50 then "8-20 EBC (Pale)"
  else if ra < 100 then "20-35 EBC (Amber)"
  else if ra < 150 then "35-50 EBC (Brown)"
  else if ra < 200 then "50-60 EBC (Porter)"
  else if ra < 250 then "60-70 EBC (Stout)"
  else "50-70 EBC (Porter/Stout)*"

/-- calculateBrewingAnalysis from brewing-analysis.ts.  The code's local
consts (alkalinity, residual alkalinity, the unrounded ratio) are inlined;
the balance label and the color range are computed from the unrounded
values, the returned numeric fields are display-rounded, and the ratio is
rounded to two decimals only when present. -/
def calculateBrewingAnalysis (p : WaterProfile) : BrewingAnalysis :=
  { alkalinity := round1 (p Ion.HCO3 * (50 / 61))
    residual_alkalinity :=
      round1 (p Ion.HCO3 * (50 / 61) - (p Ion.Ca / 1.4 + p Ion.Mg / 1.7))
    sulfate_chloride_ratio :=
      (if 0 < p Ion.Cl then some (p Ion.SO4 / p Ion.Cl) else none).map round2
    sulfate_chloride_balance :=
      getSulfateChlorideBalance (if 0 < p Ion.Cl then some (p Ion.SO4 / p Ion.Cl) else none)
    total_hardness := round1 (p Ion.Ca + p Ion.Mg)
    effective_hardness := round1 (p Ion.Ca / 1.4 + p Ion.Mg / 1.7)
    color_range :=
      getColorRange (p Ion.HCO3 * (50 / 61) - (p Ion.Ca / 1.4 + p Ion.Mg / 1.7)) }

/-!
## Calculator entry point (calculator.ts)
-/

/-- CalculationInput from types.ts. -/
structure CalculationInput where
  volume_liters : ℚ
  base_profile : WaterProfile
  target_profile : WaterProfile

/-- CalculationResult from types.ts. -/
structure CalculationResult where
  success : Bool
  error : Option String
  additions : SaltAdditions
  calculated_profile : WaterProfile
  deviations : WaterProfile
  total_salt_weight : ℚ
  brewing_analysis : BrewingAnalysis

/-- createEmptyAdditions from calculator.ts. -/
def createEmptyAdditions : SaltAdditions := fun _ => 0

/-- createZeroDeviations from calculator.ts. -/
def createZeroDeviations : WaterProfile := fun _ => 0

/-- The early return of calculateWaterAdditions when validation fails:
note the deviations come from createZeroDeviations, not target − base. -/
def validationFailureResult (base : WaterProfile) (errs : List String) : CalculationResult :=
  { success := false
    error := some ("Input validation failed: " ++ String.intercalate ", " errs)
    additions := createEmptyAdditions
    calculated_profile := base
    deviations := createZeroDeviations
    total_salt_weight := 0
    brewing_analysis := calculateBrewingAnalysis base }

/-- The catch-branch result of calculateWaterAdditions. -/
def calculationErrorResult (base : WaterProfile) (msg : String) : CalculationResult :=
  { success := false
    error := some ("Calculation error: " ++ msg)
    additions := createEmptyAdditions
    calculated_profile := base
    deviations := createZeroDeviations
    total_salt_weight := 0
    brewing_analysis := calculateBrewingAnalysis base }

/-- calculateWaterAdditions from calculator.ts, with the solver passed
through.  The throw raised by optimizeSaltAdditions is caught by the
surrounding try/catch, which is the Except.error case here. -/
def calculateWaterAdditions (solver : QPSolver) (input : CalculationInput) :
    CalculationResult :=
  if !(validateInputs input.volume_liters input.base_profile input.target_profile).valid then
    validationFailureResult input.base_profile
      (validateInputs input.volume_liters input.base_profile input.target_profile).errors
  else
    match optimizeSaltAdditions solver input.volume_liters input.base_profile
        input.target_profile with
    | Except.error msg => calculationErrorResult input.base_profile msg
    | Except.ok (o, _) =>
        let displayAdditions := roundSmallAdditions o.saltAdditionsDisplay
        let displayProfile : WaterProfile := fun ion => round1 (o.calculatedProfile ion)
        { success := true
          error := none
          additions := displayAdditions
          calculated_profile := displayProfile
          deviations := fun ion => round1 (o.deviations ion)
          total_salt_weight := round1 ((saltOrder.map (fun k => displayAdditions k)).sum)
          brewing_analysis := calculateBrewingAnalysis displayProfile }

/-!
## Reference definitions taken from the spec's wording

These two definitions follow the specification text, not the source; they
exist to be compared against the source-derived definitions above.
-/

/-- The spec's achieved-profile formula: base plus the full sum of
quantity × per-unit contribution ÷ volume over all additives, with no
positivity guard on the quantity. -/
def specAchievedProfile (vol : ℚ) (base : WaterProfile) (s : SaltAdditions) : WaterProfile :=
  fun ion => base ion + (saltOrder.map (fun k => s k * contribution k ion / vol)).sum

/-- The spec's display-rounding policy: round to one decimal place, then
floor to exactly 0 whenever the rounded value is below 0.1. -/
def specDisplayRound (q : ℚ) : ℚ :=
  if round1 q < 0.1 then 0 else round1 q

/-- The quadratic form x ᵗ H x over the 5-salt block of a built problem's
objective matrix. -/
def quadFormH (m : QPMatrices) (x : ℕ → ℚ) : ℚ :=
  ((List.range 5).map (fun i =>
    ((List.range 5).map (fun j => x (i + 1) * m.H (i + 1) (j + 1) * x (j + 1))).sum)).sum

/-!
## Concrete fixtures used by counterexamples and witnesses
-/

/-- A solver run returning a solution with a tiny negative component. -/
def negSolverTiny : QPSolver := fun _ => some [0, -(1/1000000000000), 0, 0, 0, 0]

/-- A solver run returning a solution with a meaningfully negative
component (far beyond any 1e-9 tolerance). -/
def negSolverBig : QPSolver := fun _ => some [0, -(1/2), 0, 0, 0, 0]

/-- A solver run that fails (throws or returns no solution). -/
def failSolver : QPSolver := fun _ => none

/-- A solver run returning an all-nonnegative solution. -/
def posSolver : QPSolver := fun _ => some [0, 1, 2, 0, 1/2, 3]

/-- A solver run whose first component is -1. -/
def negSolverOne : QPSolver := fun _ => some [0, -1, 0, 0, 0, 0]

/-- The all-zero water profile. -/
def zeroProfile : WaterProfile := fun _ => 0

/-- A constant 50 ppm water profile. -/
def fiftyProfile : WaterProfile := fun _ => 50

/-!
## Helper lemmas
-/

theorem contribution_nonneg (k : SaltKey) (ion : Ion) : 0 ≤ contribution k ion := by
  cases k <;> cases ion <;> norm_num [contribution]

theorem jsRound_intCast (m : ℤ) : jsRound (m : ℚ) = m := by
  unfold jsRound
  rw [add_comm, Int.floor_add_int]
  norm_num

theorem round1_idem (q : ℚ) : round1 (round1 q) = round1 q := by
  unfold round1
  rw [div_mul_cancel₀ _ (by norm_num : (10:ℚ) ≠ 0), jsRound_intCast]

theorem round1_ge_tenth (q : ℚ) (h : 1/10 ≤ q) : 1/10 ≤ round1 q := by
  unfold round1 jsRound
  have h1 : (1 : ℤ) ≤ ⌊q * 10 + 1/2⌋ := by
    rw [Int.le_floor]
    push_cast
    linarith
  have h2 : (1 : ℚ) ≤ (⌊q * 10 + 1/2⌋ : ℚ) := by exact_mod_cast h1
  linarith

theorem saltIonTerm_eq (vol a c : ℚ) (ha : 0 ≤ a) (hc : 0 ≤ c) :
    saltIonTerm vol a c = a * c / vol := by
  unfold saltIonTerm
  rcases ha.lt_or_eq with ha' | ha'
  · rw [if_pos ha']
    rcases hc.lt_or_eq with hc' | hc'
    · rw [if_pos hc']
      ring
    · rw [if_neg (by rw [← hc']; exact lt_irrefl 0), ← hc']
      ring
  · rw [if_neg (by rw [← ha']; exact lt_irrefl 0), ← ha']
    ring

/-!
## Claim theorems
-/

/-- Claim C8: display rounding is idempotent — applying roundSmallAdditions
twice yields exactly the same vector as applying it once. -/
theorem roundSmallAdditions_idem (s : SaltAdditions) :
    roundSmallAdditions (roundSmallAdditions s) = roundSmallAdditions s := by
  funext k
  unfold roundSmallAdditions
  by_cases h : s k < 0.1
  · simp only [if_pos h]
    rw [if_pos (show (0:ℚ) < 0.1 by norm_num)]
  · simp only [if_neg h]
    have h1 : (1:ℚ)/10 ≤ s k := by
      rw [not_lt] at h
      norm_num at h ⊢
      linarith
    have h2 : ¬ round1 (s k) < 0.1 := by
      rw [not_lt]
      have := round1_ge_tenth (s k) h1
      norm_num at this ⊢
      linarith
    rw [if_neg h2, round1_idem]

/-- Claim C1 counterexample: a solver solution with a tiny negative
component (-1e-12) is not replaced by zero, and a solution with a
component far below the -1e-9 tolerance is not surfaced as an error —
the run is reported feasible with a negative salt addition. -/
theorem negative_component_cex :
    ((optimizeWithQP negSolverTiny 1 zeroProfile zeroProfile).saltAdditions SaltKey.gypsum ≠ 0)
    ∧ (optimizeWithQP negSolverBig 1 zeroProfile zeroProfile).feasible = true
    ∧ (optimizeWithQP negSolverBig 1 zeroProfile zeroProfile).saltAdditions SaltKey.gypsum < 0 := by
  refine ⟨?_, rfl, ?_⟩
  · show (-(1/1000000000000) : ℚ) ≠ 0
    norm_num
  · show (-(1/2) : ℚ) < 0
    norm_num

/-- Claim C1 (amended): solver-returned components are passed through into
the full-precision salt-additions vector unchanged (a missing entry
defaults to 0); even a component more negative than the 1e-9 tolerance is
neither clamped to zero nor surfaced as an error — the run stays feasible
and the returned full-precision addition is negative. -/
theorem negative_component_passthrough (solver : QPSolver) (vol : ℚ)
    (base target : WaterProfile) (sol : List ℚ)
    (h : solver (qpInput (buildQuadprogMatrices vol base target)) = some sol)
    (hneg : sol.getD 1 0 < -(1/1000000000)) :
    (optimizeWithQP solver vol base target).feasible = true
    ∧ (optimizeWithQP solver vol base target).saltAdditions SaltKey.gypsum = sol.getD 1 0
    ∧ (optimizeWithQP solver vol base target).saltAdditions SaltKey.gypsum < 0 := by
  unfold optimizeWithQP
  rw [h]
  refine ⟨rfl, rfl, ?_⟩
  show sol.getD 1 0 < 0
  linarith

theorem negative_component_passthrough_witness :
    (optimizeWithQP negSolverBig 1 zeroProfile zeroProfile).feasible = true
    ∧ (optimizeWithQP negSolverBig 1 zeroProfile zeroProfile).saltAdditions SaltKey.gypsum
        = List.getD [0, -(1/2), 0, 0, 0, 0] 1 0
    ∧ (optimizeWithQP negSolverBig 1 zeroProfile zeroProfile).saltAdditions SaltKey.gypsum < 0 :=
  negative_component_passthrough negSolverBig 1 zeroProfile zeroProfile
    [0, -(1/2), 0, 0, 0, 0] rfl
    (by show (-(1/2) : ℚ) < -(1/1000000000); norm_num)

/-- Claim C2 counterexample: on a solver failure, optimizeSaltAdditions
does not return normally with a feasibility field set to false — it
throws (Except.error). -/
theorem infeasible_is_exception_cex :
    optimizeSaltAdditions failSolver 20 zeroProfile fiftyProfile
      = Except.error "Unable to find a feasible solution for the target water profile" := rfl

/-- Claim C2 (amended): an infeasible outcome is returned as an ordinary
value one layer down — optimizeWithQP yields a result whose feasibility
field is false — but the orchestrator optimizeSaltAdditions converts it
into an exception instead of returning it, so its callers can only
distinguish infeasibility by catching the error. -/
theorem infeasible_value_in_qp_layer (solver : QPSolver) (vol : ℚ)
    (base target : WaterProfile)
    (h : solver (qpInput (buildQuadprogMatrices vol base target)) = none) :
    (optimizeWithQP solver vol base target).feasible = false
    ∧ optimizeSaltAdditions solver vol base target
      = Except.error "Unable to find a feasible solution for the target water profile" := by
  unfold optimizeSaltAdditions optimizeWithQP
  rw [h]
  exact ⟨rfl, rfl⟩

theorem infeasible_value_in_qp_layer_witness :
    (optimizeWithQP failSolver 10 zeroProfile fiftyProfile).feasible = false
    ∧ optimizeSaltAdditions failSolver 10 zeroProfile fiftyProfile
      = Except.error "Unable to find a feasible solution for the target water profile" :=
  infeasible_value_in_qp_layer failSolver 10 zeroProfile fiftyProfile rfl

/-- Claim C3: whenever the QP solver fails, optimizeWithQP returns an
infeasible result whose precise and display additions are all zero, whose
calculated profile is the base profile unchanged on every ion, and whose
deviation is target minus base on every ion. -/
theorem qp_failure_fallback (solver : QPSolver) (vol : ℚ) (base target : WaterProfile)
    (h : solver (qpInput (buildQuadprogMatrices vol base target)) = none) :
    (optimizeWithQP solver vol base target).feasible = false
    ∧ (∀ k, (optimizeWithQP solver vol base target).saltAdditions k = 0)
    ∧ (∀ k, (optimizeWithQP solver vol base target).saltAdditionsDisplay k = 0)
    ∧ (∀ ion, (optimizeWithQP solver vol base target).calculatedProfile ion = base ion)
    ∧ (∀ ion, (optimizeWithQP solver vol base target).deviations ion = target ion - base ion) := by
  unfold optimizeWithQP
  rw [h]
  exact ⟨rfl, fun _ => rfl, fun _ => rfl, fun _ => rfl, fun _ => rfl⟩

theorem qp_failure_fallback_witness :
    (optimizeWithQP failSolver 20 zeroProfile fiftyProfile).feasible = false
    ∧ (∀ k, (optimizeWithQP failSolver 20 zeroProfile fiftyProfile).saltAdditions k = 0)
    ∧ (∀ k, (optimizeWithQP failSolver 20 zeroProfile fiftyProfile).saltAdditionsDisplay k = 0)
    ∧ (∀ ion, (optimizeWithQP failSolver 20 zeroProfile fiftyProfile).calculatedProfile ion
        = zeroProfile ion)
    ∧ (∀ ion, (optimizeWithQP failSolver 20 zeroProfile fiftyProfile).deviations ion
        = fiftyProfile ion - zeroProfile ion) :=
  qp_failure_fallback failSolver 20 zeroProfile fiftyProfile rfl

/-- Claim C7: on every successful run, the end-to-end display vector
(roundSmallAdditions applied to the display copy) agrees componentwise
with the spec's policy — round to one decimal place, flooring any rounded
value below 0.1 to exactly 0 — while the full-precision vector is the
unmodified solver extraction and the achieved profile is computed from
that unmodified vector. -/
theorem display_rounding_policy (solver : QPSolver) (vol : ℚ) (base target : WaterProfile)
    (sol : List ℚ)
    (h : solver (qpInput (buildQuadprogMatrices vol base target)) = some sol) :
    roundSmallAdditions ((optimizeWithQP solver vol base target).saltAdditionsDisplay)
      = (fun k => specDisplayRound ((optimizeWithQP solver vol base target).saltAdditions k))
    ∧ (optimizeWithQP solver vol base target).saltAdditions = extractPrecise sol
    ∧ (∀ ion, (optimizeWithQP solver vol base target).calculatedProfile ion
        = applySalts vol base (extractPrecise sol) ion) := by
  unfold optimizeWithQP
  rw [h]
  refine ⟨?_, rfl, fun ion => rfl⟩
  funext k
  show (if round1 (extractPrecise sol k) < 0.1 then 0
        else round1 (round1 (extractPrecise sol k)))
      = specDisplayRound (extractPrecise sol k)
  unfold specDisplayRound
  rw [round1_idem]

theorem display_rounding_policy_witness :
    roundSmallAdditions ((optimizeWithQP posSolver 2 zeroProfile fiftyProfile).saltAdditionsDisplay)
      = (fun k => specDisplayRound ((optimizeWithQP posSolver 2 zeroProfile fiftyProfile).saltAdditions k))
    ∧ (optimizeWithQP posSolver 2 zeroProfile fiftyProfile).saltAdditions
        = extractPrecise [0, 1, 2, 0, 1/2, 3]
    ∧ (∀ ion, (optimizeWithQP posSolver 2 zeroProfile fiftyProfile).calculatedProfile ion
        = applySalts 2 zeroProfile (extractPrecise [0, 1, 2, 0, 1/2, 3]) ion) :=
  display_rounding_policy posSolver 2 zeroProfile fiftyProfile [0, 1, 2, 0, 1/2, 3] rfl

/-- Claim C4: an input with non-positive volume is rejected by validation
before any optimization — the validator reports invalid with the message
naming the volume field, and calculateWaterAdditions returns the
validation-failure result whatever the solver is, so the QP solver is
never invoked. -/
theorem volume_nonpositive_rejected (solver : QPSolver) (input : CalculationInput)
    (h : input.volume_liters ≤ 0) :
    (validateInputs input.volume_liters input.base_profile input.target_profile).valid = false
    ∧ "volume must be positive"
        ∈ (validateInputs input.volume_liters input.base_profile input.target_profile).errors
    ∧ calculateWaterAdditions solver input
        = validationFailureResult input.base_profile
            (validateInputs input.volume_liters input.base_profile
              input.target_profile).errors := by
  have herr : inputErrors input.volume_liters input.base_profile input.target_profile
      = "volume must be positive"
        :: ((validateWaterProfile input.base_profile "base").errors
          ++ (validateWaterProfile input.target_profile "target").errors) := by
    unfold inputErrors
    rw [if_pos h]
    rfl
  have hvalid : (validateInputs input.volume_liters input.base_profile
      input.target_profile).valid = false := by
    show (inputErrors input.volume_liters input.base_profile input.target_profile).isEmpty
        = false
    rw [herr]
    rfl
  refine ⟨hvalid, ?_, ?_⟩
  · show "volume must be positive"
        ∈ inputErrors input.volume_liters input.base_profile input.target_profile
    rw [herr]
    exact List.mem_cons_self _ _
  · unfold calculateWaterAdditions
    rw [hvalid]
    rfl

theorem volume_nonpositive_rejected_witness :
    (validateInputs (0:ℚ) zeroProfile fiftyProfile).valid = false
    ∧ "volume must be positive" ∈ (validateInputs (0:ℚ) zeroProfile fiftyProfile).errors
    ∧ calculateWaterAdditions failSolver
        { volume_liters := 0, base_profile := zeroProfile, target_profile := fiftyProfile }
        = validationFailureResult zeroProfile
            (validateInputs (0:ℚ) zeroProfile fiftyProfile).errors :=
  volume_nonpositive_rejected failSolver
    { volume_liters := 0, base_profile := zeroProfile, target_profile := fiftyProfile }
    le_rfl

/-- Claim C9: on any validation failure, calculateWaterAdditions reports
success = false with all-zero additions, the base profile as the
calculated profile, deviations all exactly zero (not target minus base),
and zero total salt weight. -/
theorem validation_failure_result_fields (solver : QPSolver) (input : CalculationInput)
    (h : (validateInputs input.volume_liters input.base_profile
        input.target_profile).valid = false) :
    (calculateWaterAdditions solver input).success = false
    ∧ (∀ k, (calculateWaterAdditions solver input).additions k = 0)
    ∧ (∀ ion, (calculateWaterAdditions solver input).calculated_profile ion
        = input.base_profile ion)
    ∧ (∀ ion, (calculateWaterAdditions solver input).deviations ion = 0)
    ∧ (calculateWaterAdditions solver input).total_salt_weight = 0 := by
  have hres : calculateWaterAdditions solver input
      = validationFailureResult input.base_profile
          (validateInputs input.volume_liters input.base_profile
            input.target_profile).errors := by
    unfold calculateWaterAdditions
    rw [h]
    rfl
  rw [hres]
  exact ⟨rfl, fun _ => rfl, fun _ => rfl, fun _ => rfl, rfl⟩

theorem validation_failure_result_fields_witness :
    zeroProfile Ion.Ca ≠ fiftyProfile Ion.Ca
    ∧ ((calculateWaterAdditions failSolver
          { volume_liters := 0, base_profile := zeroProfile,
            target_profile := fiftyProfile }).success = false
      ∧ (∀ k, (calculateWaterAdditions failSolver
          { volume_liters := 0, base_profile := zeroProfile,
            target_profile := fiftyProfile }).additions k = 0)
      ∧ (∀ ion, (calculateWaterAdditions failSolver
          { volume_liters := 0, base_profile := zeroProfile,
            target_profile := fiftyProfile }).calculated_profile ion = zeroProfile ion)
      ∧ (∀ ion, (calculateWaterAdditions failSolver
          { volume_liters := 0, base_profile := zeroProfile,
            target_profile := fiftyProfile }).deviations ion = 0)
      ∧ (calculateWaterAdditions failSolver
          { volume_liters := 0, base_profile := zeroProfile,
            target_profile := fiftyProfile }).total_salt_weight = 0) :=
  ⟨by show (0:ℚ) ≠ 50; norm_num,
    validation_failure_result_fields failSolver
      { volume_liters := 0, base_profile := zeroProfile, target_profile := fiftyProfile }
      (by rfl)⟩

/-- Claim C6 counterexample: a successful feasible run whose solver
solution has a negative component — the code skips that additive, so the
reported achieved profile does not equal base plus the full contribution
sum of the returned quantities. -/
theorem achieved_profile_cex :
    (optimizeWithQP negSolverOne 1 zeroProfile zeroProfile).feasible = true
    ∧ (optimizeWithQP negSolverOne 1 zeroProfile zeroProfile).calculatedProfile Ion.Ca
      ≠ specAchievedProfile 1 zeroProfile
          ((optimizeWithQP negSolverOne 1 zeroProfile zeroProfile).saltAdditions) Ion.Ca := by
  constructor
  · rfl
  · show applySalts 1 zeroProfile (extractPrecise [0, -1, 0, 0, 0, 0]) Ion.Ca
        ≠ specAchievedProfile 1 zeroProfile (extractPrecise [0, -1, 0, 0, 0, 0]) Ion.Ca
    unfold applySalts specAchievedProfile saltOrder zeroProfile
    norm_num [saltIonTerm, extractPrecise, saltIdx, contribution]

/-- Claim C6 (amended): on every successful run, reapplying the returned
full-precision quantities to the base profile through the contribution
model reproduces the reported achieved profile (round-trip consistency),
and the reported deviation equals achieved minus target on every ion;
the achieved profile moreover equals base plus the full, unguarded sum of
quantity × per-unit contribution ÷ volume whenever every extracted
full-precision quantity is nonnegative — a negative quantity is skipped
by the code, which breaks that full-sum formula. -/
theorem achieved_profile_roundtrip (solver : QPSolver) (vol : ℚ)
    (base target : WaterProfile) (sol : List ℚ)
    (h : solver (qpInput (buildQuadprogMatrices vol base target)) = some sol) :
    (∀ ion, applySalts vol base ((optimizeWithQP solver vol base target).saltAdditions) ion
        = (optimizeWithQP solver vol base target).calculatedProfile ion)
    ∧ (∀ ion, (optimizeWithQP solver vol base target).deviations ion
        = (optimizeWithQP solver vol base target).calculatedProfile ion - target ion)
    ∧ ((∀ k, 0 ≤ extractPrecise sol k) →
        ∀ ion, (optimizeWithQP solver vol base target).calculatedProfile ion
          = specAchievedProfile vol base
              ((optimizeWithQP solver vol base target).saltAdditions) ion) := by
  unfold optimizeWithQP
  rw [h]
  refine ⟨fun ion => rfl, fun ion => rfl, ?_⟩
  intro hpos ion
  show applySalts vol base (extractPrecise sol) ion
      = specAchievedProfile vol base (extractPrecise sol) ion
  have e : ∀ k : SaltKey, saltIonTerm vol (extractPrecise sol k) (contribution k ion)
      = extractPrecise sol k * contribution k ion / vol :=
    fun k => saltIonTerm_eq vol _ _ (hpos k) (contribution_nonneg k ion)
  simp only [applySalts, specAchievedProfile, saltOrder, List.map_cons, List.map_nil,
    List.sum_cons, List.sum_nil, e]

theorem achieved_profile_roundtrip_witness :
    (∀ k, 0 ≤ extractPrecise [0, 1, 2, 0, 1/2, 3] k)
    ∧ ((∀ ion, applySalts 2 zeroProfile
          ((optimizeWithQP posSolver 2 zeroProfile fiftyProfile).saltAdditions) ion
        = (optimizeWithQP posSolver 2 zeroProfile fiftyProfile).calculatedProfile ion)
      ∧ (∀ ion, (optimizeWithQP posSolver 2 zeroProfile fiftyProfile).deviations ion
          = (optimizeWithQP posSolver 2 zeroProfile fiftyProfile).calculatedProfile ion
            - fiftyProfile ion)
      ∧ ((∀ k, 0 ≤ extractPrecise [0, 1, 2, 0, 1/2, 3] k) →
          ∀ ion, (optimizeWithQP posSolver 2 zeroProfile fiftyProfile).calculatedProfile ion
            = specAchievedProfile 2 zeroProfile
                ((optimizeWithQP posSolver 2 zeroProfile fiftyProfile).saltAdditions) ion))
    ∧ ((∀ ion, applySalts 1 zeroProfile
          ((optimizeWithQP negSolverOne 1 zeroProfile zeroProfile).saltAdditions) ion
        = (optimizeWithQP negSolverOne 1 zeroProfile zeroProfile).calculatedProfile ion)
      ∧ (∀ ion, (optimizeWithQP negSolverOne 1 zeroProfile zeroProfile).deviations ion
          = (optimizeWithQP negSolverOne 1 zeroProfile zeroProfile).calculatedProfile ion
            - zeroProfile ion)
      ∧ ((∀ k, 0 ≤ extractPrecise [0, -1, 0, 0, 0, 0] k) →
          ∀ ion, (optimizeWithQP negSolverOne 1 zeroProfile zeroProfile).calculatedProfile ion
            = specAchievedProfile 1 zeroProfile
                ((optimizeWithQP negSolverOne 1 zeroProfile zeroProfile).saltAdditions) ion)) :=
  ⟨by
      intro k
      cases k
      · show (0:ℚ) ≤ 1
        norm_num
      · show (0:ℚ) ≤ 2
        norm_num
      · show (0:ℚ) ≤ 0
        norm_num
      · show (0:ℚ) ≤ 1/2
        norm_num
      · show (0:ℚ) ≤ 3
        norm_num,
    achieved_profile_roundtrip posSolver 2 zeroProfile fiftyProfile [0, 1, 2, 0, 1/2, 3] rfl,
    achieved_profile_roundtrip negSolverOne 1 zeroProfile zeroProfile [0, -1, 0, 0, 0, 0] rfl⟩

theorem balance_some_ne (r : ℚ) :
    getSulfateChlorideBalance (some r) ≠ "N/A (No Chloride)" := by
  show (if r < 0.4 then "Very Malty"
        else if r < 0.6 then "Malty"
        else if r < 0.8 then "Slightly Malty"
        else if r < 1.2 then "Balanced"
        else if r < 2.0 then "Slightly Bitter"
        else if r < 3.0 then "Bitter"
        else "Very Bitter") ≠ "N/A (No Chloride)"
  split_ifs <;> decide

/-- Claim C10: the sulfate/chloride ratio of calculateBrewingAnalysis is
null exactly when the chloride concentration is ≤ 0 (the division is
guarded), and the balance label is the no-chloride label exactly in that
case. -/
theorem chloride_ratio_guard (p : WaterProfile) :
    (BrewingAnalysis.sulfate_chloride_ratio (calculateBrewingAnalysis p) = none
        ↔ p Ion.Cl ≤ 0)
    ∧ (BrewingAnalysis.sulfate_chloride_balance (calculateBrewingAnalysis p)
        = "N/A (No Chloride)" ↔ p Ion.Cl ≤ 0) := by
  have hratio : BrewingAnalysis.sulfate_chloride_ratio (calculateBrewingAnalysis p)
      = (if 0 < p Ion.Cl then some (p Ion.SO4 / p Ion.Cl) else none).map round2 := rfl
  have hbal : BrewingAnalysis.sulfate_chloride_balance (calculateBrewingAnalysis p)
      = getSulfateChlorideBalance
          (if 0 < p Ion.Cl then some (p Ion.SO4 / p Ion.Cl) else none) := rfl
  by_cases h : 0 < p Ion.Cl
  · rw [hratio, hbal, if_pos h]
    constructor
    · constructor
      · intro hc
        simp at hc
      · intro hc
        exact absurd hc (not_le.mpr h)
    · constructor
      · intro hc
        exact absurd hc (balance_some_ne _)
      · intro hc
        exact absurd hc (not_le.mpr h)
  · rw [hratio, hbal, if_neg h]
    constructor
    · constructor
      · intro _
        exact not_lt.mp h
      · intro _
        rfl
    · constructor
      · intro _
        exact not_lt.mp h
      · intro _
        rfl

theorem ionAt_1 : ionAt 1 = Ion.Ca := rfl
theorem ionAt_2 : ionAt 2 = Ion.Mg := rfl
theorem ionAt_3 : ionAt 3 = Ion.Na := rfl
theorem ionAt_4 : ionAt 4 = Ion.SO4 := rfl
theorem ionAt_5 : ionAt 5 = Ion.Cl := rfl
theorem ionAt_6 : ionAt 6 = Ion.HCO3 := rfl
theorem saltAt_1 : saltAt 1 = SaltKey.gypsum := rfl
theorem saltAt_2 : saltAt 2 = SaltKey.cacl2 := rfl
theorem saltAt_3 : saltAt 3 = SaltKey.epsom := rfl
theorem saltAt_4 : saltAt 4 = SaltKey.nacl := rfl
theorem saltAt_5 : saltAt 5 = SaltKey.nahco3 := rfl

theorem quadFormH_eq (vol : ℚ) (base target : WaterProfile) (x : ℕ → ℚ) :
    quadFormH (buildQuadprogMatrices vol base target) x
      = 2 * (((232.8 * x 1 + 272.6 * x 2) / vol)^2
          + ((98.6 * x 3) / vol)^2
          + ((393.4 * x 4 + 273.6 * x 5) / vol)^2
          + ((557.9 * x 1 + 389.6 * x 3) / vol)^2
          + ((482.3 * x 2 + 606.6 * x 4) / vol)^2
          + ((726.4 * x 5) / vol)^2) := by
  have r5 : List.range 5 = [0, 1, 2, 3, 4] := rfl
  have r6 : List.range 6 = [0, 1, 2, 3, 4, 5] := rfl
  simp only [quadFormH, buildQuadprogMatrices, hessian, contribMatrix, r5, r6,
    List.map_cons, List.map_nil, List.sum_cons, List.sum_nil]
  norm_num [ionAt_1, ionAt_2, ionAt_3, ionAt_4, ionAt_5, ionAt_6,
    saltAt_1, saltAt_2, saltAt_3, saltAt_4, saltAt_5, contribution]
  ring

theorem quadFormH_nonneg (vol : ℚ) (base target : WaterProfile) (x : ℕ → ℚ) :
    0 ≤ quadFormH (buildQuadprogMatrices vol base target) x := by
  rw [quadFormH_eq vol base target x]
  positivity

/-- Claim C5: for every positive volume and every pair of profiles, the
built contribution matrix has entry contribution ÷ volume where the salt
contributes the ion and 0 otherwise, the objective matrix is 2·MᵗM
entrywise, it is symmetric, and its quadratic form is nonnegative on
every vector. -/
theorem builder_matrices_correct (vol : ℚ) (hvol : 0 < vol) (base target : WaterProfile) :
    (∀ i j, 1 ≤ i → i ≤ 6 → 1 ≤ j → j ≤ 5 →
      (buildQuadprogMatrices vol base target).A i j
        = if contribution (saltAt j) (ionAt i) ≠ 0
          then contribution (saltAt j) (ionAt i) / vol else 0)
    ∧ (∀ i j, 1 ≤ i → i ≤ 5 → 1 ≤ j → j ≤ 5 →
      (buildQuadprogMatrices vol base target).H i j
        = 2 * ((List.range 6).map (fun k =>
            (buildQuadprogMatrices vol base target).A (k + 1) i
              * (buildQuadprogMatrices vol base target).A (k + 1) j)).sum)
    ∧ (∀ i j, (buildQuadprogMatrices vol base target).H i j
        = (buildQuadprogMatrices vol base target).H j i)
    ∧ (∀ x : ℕ → ℚ, 0 ≤ quadFormH (buildQuadprogMatrices vol base target) x) := by
  refine ⟨?_, ?_, ?_, fun x => quadFormH_nonneg vol base target x⟩
  · intro i j h1 h2 h3 h4
    show contribMatrix vol i j = _
    unfold contribMatrix
    rw [if_pos ⟨h1, h2, h3, h4⟩]
    rcases (contribution_nonneg (saltAt j) (ionAt i)).lt_or_eq with hc | hc
    · rw [if_pos hc, if_pos (ne_of_gt hc)]
    · rw [if_neg (by rw [← hc]; exact lt_irrefl 0), if_neg (by rw [← hc]; simp)]
  · intro i j h1 h2 h3 h4
    show hessian vol i j = _
    unfold hessian
    rw [if_pos ⟨h1, h2, h3, h4⟩]
    rfl
  · intro i j
    show hessian vol i j = hessian vol j i
    unfold hessian
    by_cases hij : 1 ≤ i ∧ i ≤ 5 ∧ 1 ≤ j ∧ j ≤ 5
    · rw [if_pos hij, if_pos ⟨hij.2.2.1, hij.2.2.2, hij.1, hij.2.1⟩]
      have e : (fun k => contribMatrix vol (k + 1) i * contribMatrix vol (k + 1) j)
          = fun k => contribMatrix vol (k + 1) j * contribMatrix vol (k + 1) i := by
        funext k
        ring
      rw [e]
    · rw [if_neg hij, if_neg (by tauto)]

theorem builder_matrices_correct_witness :
    (0:ℚ) < 1
    ∧ ((∀ i j, 1 ≤ i → i ≤ 6 → 1 ≤ j → j ≤ 5 →
        (buildQuadprogMatrices 1 zeroProfile fiftyProfile).A i j
          = if contribution (saltAt j) (ionAt i) ≠ 0
            then contribution (saltAt j) (ionAt i) / 1 else 0)
      ∧ (∀ i j, 1 ≤ i → i ≤ 5 → 1 ≤ j → j ≤ 5 →
        (buildQuadprogMatrices 1 zeroProfile fiftyProfile).H i j
          = 2 * ((List.range 6).map (fun k =>
              (buildQuadprogMatrices 1 zeroProfile fiftyProfile).A (k + 1) i
                * (buildQuadprogMatrices 1 zeroProfile fiftyProfile).A (k + 1) j)).sum)
      ∧ (∀ i j, (buildQuadprogMatrices 1 zeroProfile fiftyProfile).H i j
          = (buildQuadprogMatrices 1 zeroProfile fiftyProfile).H j i)
      ∧ (∀ x : ℕ → ℚ, 0 ≤ quadFormH (buildQuadprogMatrices 1 zeroProfile fiftyProfile) x)) :=
  ⟨by norm_num, builder_matrices_correct 1 (by norm_num) zeroProfile fiftyProfile⟩
